import Mathlib

/-!
Verification of the predicate-tree compiler and evaluator in
`thorn/utils/functional.py`: a shallow embedding of the `Q` object-query
class (operator registry, transition operators, leaf compiler, boolean
gate tree) together with theorems settling the specification claims.

Python values are embedded as an inductive `PyVal`; fallible Python
code (attribute lookup, comparisons that can raise `TypeError`, the
unknown-operator `ValueError`) is embedded in `Except PyErr`.
-/

namespace Thorn

/-- Embedded Python runtime errors surfaced by the evaluator. -/
inductive PyErr where
  | typeError (msg : String)
  | attributeError (msg : String)
  | valueError (msg : String)
  | keyError (msg : String)
deriving DecidableEq

mutual
/-- Embedded Python values: `None`, booleans, integers, strings, lists
and plain objects with named attributes. -/
inductive PyVal where
  | none
  | bool (b : Bool)
  | int (n : Int)
  | str (s : String)
  | list (xs : PyList)
  | obj (fields : PyFields)

/-- A Python list of values (own list type, mutual with `PyVal`). -/
inductive PyList where
  | nil
  | cons (head : PyVal) (tail : PyList)

/-- The attribute dictionary of an embedded Python object. -/
inductive PyFields where
  | fnil
  | fcons (name : String) (val : PyVal) (rest : PyFields)
end

/-- Build a `PyList` from a Lean list. -/
def PyList.ofList : List PyVal → PyList
  | [] => .nil
  | v :: rest => .cons v (PyList.ofList rest)

/-- Build an attribute dictionary from a Lean association list. -/
def PyFields.ofList : List (String × PyVal) → PyFields
  | [] => .fnil
  | (n, v) :: rest => .fcons n v (PyFields.ofList rest)

/-- Convenience constructor for a plain object with given attributes. -/
def mkObj (fields : List (String × PyVal)) : PyVal :=
  .obj (PyFields.ofList fields)

/-- Is a `PyList` empty? -/
def PyList.isNil : PyList → Bool
  | .nil => true
  | .cons _ _ => false

/-- Python truthiness (`bool(x)` / `operator.truth`): `None`, `False`,
`0`, `""` and `[]` are falsy; objects are truthy. -/
def truthy : PyVal → Bool
  | .none => false
  | .bool b => b
  | .int n => decide (n ≠ 0)
  | .str s => match s.data with | [] => false | _ => true
  | .list xs => !xs.isNil
  | .obj _ => true

/-- Numeric view used by Python comparisons: `bool` is an `int`
subtype, so `True == 1` and `False == 0`. -/
def pyNum : PyVal → Option Int
  | .bool b => Option.some (if b then 1 else 0)
  | .int n => Option.some n
  | _ => Option.none

mutual
/-- Python `==` on embedded values (numeric bool/int coercion, element
wise on lists, attribute-wise on objects; cross-kind is unequal). -/
def pyEq : PyVal → PyVal → Bool
  | .none, .none => true
  | .str a, .str b => a == b
  | .list xs, .list ys => pyEqList xs ys
  | .obj fs, .obj gs => pyEqFields fs gs
  | a, b =>
    match pyNum a, pyNum b with
    | Option.some x, Option.some y => x == y
    | _, _ => false

/-- Element-wise Python `==` on lists. -/
def pyEqList : PyList → PyList → Bool
  | .nil, .nil => true
  | .cons a as_, .cons b bs_ => pyEq a b && pyEqList as_ bs_
  | _, _ => false

/-- Attribute-wise Python `==` on object dictionaries. -/
def pyEqFields : PyFields → PyFields → Bool
  | .fnil, .fnil => true
  | .fcons n a ra, .fcons m b rb => n == m && pyEq a b && pyEqFields ra rb
  | _, _ => false
end

/-- Python `is` identity on the embedded values: the singletons `None`,
`True`, `False` (and interned small ints) are identical exactly when
equal; distinct container or string instances are not identical. -/
def pyIs : PyVal → PyVal → Bool
  | .none, .none => true
  | .bool a, .bool b => a == b
  | .int a, .int b => a == b
  | _, _ => false

/-- Is `needle` a prefix of the second char list? -/
def isPrefixChars : List Char → List Char → Bool
  | [], _ => true
  | _ :: _, [] => false
  | a :: restA, b :: restB => a == b && isPrefixChars restA restB

/-- Does `needle` occur as a contiguous substring of the char list? -/
def containsChars (needle : List Char) : List Char → Bool
  | [] => needle.isEmpty
  | c :: rest => isPrefixChars needle (c :: rest) || containsChars needle rest

/-- Python substring test `sub in hay` on strings (also used for the
`'now' in opcode` dispatch in `compile_op`). -/
def strContains (hay sub : String) : Bool :=
  containsChars sub.data hay.data

/-- Code-point lexicographic `<` on char lists (Python string order). -/
def charsLt : List Char → List Char → Bool
  | [], [] => false
  | [], _ :: _ => true
  | _ :: _, [] => false
  | a :: restA, b :: restB => decide (a < b) || (a == b && charsLt restA restB)

/-- Python `a < b`: numeric comparison for int/bool operands,
lexicographic for strings, `TypeError` for any other pairing
(Python 3 semantics, e.g. `None < 1` raises). -/
def pyLtB (a b : PyVal) : Except PyErr Bool :=
  match pyNum a, pyNum b with
  | Option.some x, Option.some y => .ok (decide (x < y))
  | _, _ =>
    match a, b with
    | .str s, .str t => .ok (charsLt s.data t.data)
    | _, _ => .error (.typeError "unorderable operand types")

/-- Python `a <= b`, with the same domain as `pyLtB`. -/
def pyLeB (a b : PyVal) : Except PyErr Bool :=
  match pyNum a, pyNum b with
  | Option.some x, Option.some y => .ok (decide (x ≤ y))
  | _, _ =>
    match a, b with
    | .str s, .str t => .ok (!charsLt t.data s.data)
    | _, _ => .error (.typeError "unorderable operand types")

/-- Does the embedded list contain a member `==`-equal to `v`? -/
def PyList.containsVal : PyList → PyVal → Bool
  | .nil, _ => false
  | .cons h t, v => pyEq h v || t.containsVal v

/-- Python membership `item in container`: element test for lists,
substring test for strings, `TypeError` for non-containers. -/
def pyContains : PyVal → PyVal → Except PyErr Bool
  | .list xs, v => .ok (xs.containsVal v)
  | .str s, .str t => .ok (containsChars t.data s.data)
  | .str _, _ => .error (.typeError "in <string> requires string as left operand")
  | _, _ => .error (.typeError "argument of type is not iterable")

/-- A binary operator of the registry: `f(a, b)` over Python values,
possibly raising. -/
def BinOp := PyVal → PyVal → Except PyErr PyVal

/-- A transition operator: `f(new_value, needle, old_value)`. -/
def TransOp := PyVal → PyVal → PyVal → Except PyErr PyVal

/-- Embeds `startswith(a, b) -> a.startswith(b)` from the source: raises
`AttributeError` when `a` is not a string, `TypeError` when the
argument is not a string. -/
def startswith : BinOp := fun a b =>
  match a, b with
  | .str s, .str t => .ok (.bool (isPrefixChars t.data s.data))
  | .str _, _ => .error (.typeError "startswith first arg must be str")
  | _, _ => .error (.attributeError "object has no attribute startswith")

/-- Embeds `endswith(a, b) -> a.endswith(b)` from the source. -/
def endswith : BinOp := fun a b =>
  match a, b with
  | .str s, .str t => .ok (.bool (isPrefixChars t.data.reverse s.data.reverse))
  | .str _, _ => .error (.typeError "endswith first arg must be str")
  | _, _ => .error (.attributeError "object has no attribute endswith")

/-- Embeds `operator.eq`. -/
def opEq : BinOp := fun a b => .ok (.bool (pyEq a b))

/-- Embeds `operator.ne`. -/
def opNe : BinOp := fun a b => .ok (.bool (!pyEq a b))

/-- Embeds `operator.gt` (`a > b`). -/
def opGt : BinOp := fun a b => (pyLtB b a).map PyVal.bool

/-- Embeds `operator.lt` (`a < b`). -/
def opLt : BinOp := fun a b => (pyLtB a b).map PyVal.bool

/-- Embeds `operator.ge` (`a >= b`). -/
def opGe : BinOp := fun a b => (pyLeB b a).map PyVal.bool

/-- Embeds `operator.le` (`a <= b`). -/
def opLe : BinOp := fun a b => (pyLeB a b).map PyVal.bool

/-- Embeds `operator.is_`. -/
def opIs : BinOp := fun a b => .ok (.bool (pyIs a b))

/-- Embeds `operator.is_not`. -/
def opIsNot : BinOp := fun a b => .ok (.bool (!pyIs a b))

/-- Embeds `operator.contains` (`b in a`). -/
def opContains : BinOp := fun a b => (pyContains a b).map PyVal.bool

/-- Embeds `not_contains(a, b) -> b not in a` from the source. -/
def not_contains : BinOp := fun a b => (pyContains a b).map fun r => .bool (!r)

/-- Embeds `lambda x, _: operator.not_(x)`: unary falsiness test, literal
discarded. -/
def opNot : BinOp := fun x _ => .ok (.bool (!truthy x))

/-- Embeds `lambda x, _: operator.truth(x)`: unary truthiness test, literal
discarded. -/
def opTrue : BinOp := fun x _ => .ok (.bool (truthy x))

/-- Embeds `reverse_arguments(2)`: swap the two arguments of a binary
operator (the `reverse_n`/`reverse_arguments` combinators from the
source, instantiated at the arity the registry uses). -/
def reverse_arguments2 (f : BinOp) : BinOp := fun a b => f b a

/-- Embeds `negate(fun)`: boolean negation of the wrapped operator's (truthy)
result; exceptions propagate. -/
def negate (f : BinOp) : BinOp := fun a b =>
  (f a b).map fun v => .bool (!truthy v)

/-- Embeds `wrap_transition(op, did_change)`: the transition operator
`compare(new_value, needle, old_value) = did_change(old_value, needle)
and op(new_value, needle)`, with Python `and` semantics (returns the
falsy left value unchanged, otherwise the right value). -/
def wrap_transition (op did_change : BinOp) : TransOp :=
  fun new_value needle old_value =>
    match did_change old_value needle with
    | .error e => .error e
    | .ok d => if truthy d then op new_value needle else .ok d

/-- An entry of the operator registry: binary, or ternary transition. -/
inductive OpEntry where
  | bin (f : BinOp)
  | trans (f : TransOp)

/-- The `Q.operators` registry: opcode name to operator function,
exactly the dictionary from the source. -/
def operators : String → Option OpEntry
  | "eq" => Option.some (.bin opEq)
  | "now_eq" => Option.some (.trans (wrap_transition opEq opNe))
  | "ne" => Option.some (.bin opNe)
  | "now_ne" => Option.some (.trans (wrap_transition opNe opNe))
  | "gt" => Option.some (.bin opGt)
  | "now_gt" => Option.some (.trans (wrap_transition opGt opLt))
  | "lt" => Option.some (.bin opLt)
  | "now_lt" => Option.some (.trans (wrap_transition opLt opGt))
  | "gte" => Option.some (.bin opGe)
  | "now_gte" => Option.some (.trans (wrap_transition opGe opLe))
  | "lte" => Option.some (.bin opLe)
  | "now_lte" => Option.some (.trans (wrap_transition opLe opGe))
  | "in" => Option.some (.bin (reverse_arguments2 opContains))
  | "now_in" => Option.some (.trans (wrap_transition
      (reverse_arguments2 opContains) (reverse_arguments2 not_contains)))
  | "not_in" => Option.some (.bin (reverse_arguments2 not_contains))
  | "now_not_in" => Option.some (.trans (wrap_transition
      (reverse_arguments2 not_contains) (reverse_arguments2 opContains)))
  | "is" => Option.some (.bin opIs)
  | "now_is" => Option.some (.trans (wrap_transition opIs opIsNot))
  | "is_not" => Option.some (.bin opIsNot)
  | "now_is_not" => Option.some (.trans (wrap_transition opIsNot
      (fun a _ => .ok (.bool (pyIs a .none)))))
  | "contains" => Option.some (.bin opContains)
  | "now_contains" => Option.some (.trans (wrap_transition opContains (negate opContains)))
  | "not" => Option.some (.bin opNot)
  | "true" => Option.some (.bin opTrue)
  | "startswith" => Option.some (.bin startswith)
  | "now_startswith" => Option.some (.trans (wrap_transition startswith (negate startswith)))
  | "endswith" => Option.some (.bin endswith)
  | "now_endswith" => Option.some (.trans (wrap_transition endswith (negate endswith)))
  | _ => Option.none

/-- The `E_FILTER_FIELD_MISSING_OP` message template applied to its
argument, as in `E_FILTER_FIELD_MISSING_OP.format(lhs)`. -/
def E_FILTER_FIELD_MISSING_OP (lhs : String) : String :=
  "filter field argument '" ++ lhs ++ "' not allowed: did you mean '" ++ lhs ++ "__eq'?"

/-- Split a char list around the LAST occurrence of the two-character
separator `__`; `Option.none` when no occurrence exists. -/
def lastDunder : List Char → Option (List Char × List Char)
  | [] => Option.none
  | [_] => Option.none
  | a :: b :: rest =>
    match lastDunder (b :: rest) with
    | Option.some (pre, post) => Option.some (a :: pre, post)
    | Option.none =>
      if a == '_' && b == '_' then Option.some ([], rest) else Option.none

/-- Embeds `lhs.rpartition('__')` restricted to the two components the source
uses: the part before the last separator and the part after it; a
separator-less string partitions as `("", lhs)`, exactly as
`rpartition` yields `('', '', lhs)`. -/
def rpartitionDunder (lhs : String) : String × String :=
  match lastDunder lhs.data with
  | Option.some (pre, post) => (String.mk pre, String.mk post)
  | Option.none => ("", lhs)

/-- Embeds `lhs.replace('__', '.')`: left-to-right, non-overlapping. -/
def replaceDunder : List Char → List Char
  | '_' :: '_' :: rest => '.' :: replaceDunder rest
  | c :: rest => c :: replaceDunder rest
  | [] => []

/-- Embeds `Q.prepare_opcode`: the boolean-literal sugar. `eq`/`True` and
`ne`/`False` become the unary truthiness opcode `true`; `eq`/`False`
and `ne`/`True` become the unary falsiness opcode `not`; the literal
identity tests are Python `is` against the singletons. -/
def prepare_opcode (O : String) (rhs : PyVal) : String :=
  if (O == "eq" && (match rhs with | .bool true => true | _ => false))
      || (O == "ne" && (match rhs with | .bool false => true | _ => false)) then
    "true"
  else if (O == "eq" && (match rhs with | .bool false => true | _ => false))
      || (O == "ne" && (match rhs with | .bool true => true | _ => false)) then
    "not"
  else O

/-- Embeds `Q.prepare_statement`: split the key on the last `__` into path
and opcode; an empty or unregistered opcode raises
`ValueError(E_FILTER_FIELD_MISSING_OP.format(lhs))`; otherwise the
path has `__` replaced by `.` and the opcode goes through
`prepare_opcode`. -/
def prepare_statement (lhs : String) (rhs : PyVal) : Except PyErr (String × String) :=
  let parts := rpartitionDunder lhs
  if parts.2.data.isEmpty || (operators parts.2).isNone then
    .error (.valueError (E_FILTER_FIELD_MISSING_OP parts.1))
  else
    .ok (String.mk (replaceDunder parts.1.data), prepare_opcode parts.2 rhs)

/-- Attribute lookup on an embedded object dictionary. -/
def PyFields.lookup : PyFields → String → Option PyVal
  | .fnil, _ => Option.none
  | .fcons n v rest, name => if n == name then Option.some v else rest.lookup name

/-- Embeds `getattr(obj, name)` returning `Option` (the caller decides how an
`AttributeError` surfaces); non-`obj` values expose no attributes. -/
def pyGetattrOpt : PyVal → String → Option PyVal
  | .obj fs, name => fs.lookup name
  | _, _ => Option.none

/-- Embeds `getattr(obj, name)`, raising `AttributeError` when absent. -/
def pyGetattr (v : PyVal) (name : String) : Except PyErr PyVal :=
  match pyGetattrOpt v name with
  | Option.some r => .ok r
  | Option.none => .error (.attributeError name)

/-- Split an attribute path on `.` into its segments. -/
def splitDotAux : List Char → List Char → List String
  | [], acc => [String.mk acc.reverse]
  | c :: rest, acc =>
    if c == '.' then String.mk acc.reverse :: splitDotAux rest []
    else splitDotAux rest (c :: acc)

/-- Fold attribute lookup over path segments. -/
def attrSegsGet : List String → PyVal → Except PyErr PyVal
  | [], v => .ok v
  | s :: rest, v =>
    match pyGetattr v s with
    | .error e => .error e
    | .ok next => attrSegsGet rest next

/-- Embeds `operator.attrgetter(path)(obj)`: dotted attribute traversal,
surfacing `AttributeError` for any missing segment. -/
def attrgetter (path : String) (obj : PyVal) : Except PyErr PyVal :=
  attrSegsGet (splitDotAux path.data []) obj

/-- Embeds `Q._get_from_prev_version`: read `obj._previous_version`, catching
only the `AttributeError` of that read (yields `None`); when a
previous version exists, apply the same attribute getter to it,
propagating its failures. -/
def get_from_prev_version (path : String) (obj : PyVal) : Except PyErr PyVal :=
  match pyGetattrOpt obj "_previous_version" with
  | Option.none => .ok PyVal.none
  | Option.some prev => attrgetter path prev

/-- Embeds `Q.apply_op`: `op(getter(obj), rhs)`. -/
def apply_op (path : String) (op : BinOp) (rhs : PyVal) (obj : PyVal) :
    Except PyErr PyVal :=
  match attrgetter path obj with
  | .error e => .error e
  | .ok v => op v rhs

/-- Embeds `Q.apply_trans_op`: `op(getter(obj), rhs,
_get_from_prev_version(getter, obj))`; the previous-version lookup is
an argument of the call and is evaluated first. -/
def apply_trans_op (path : String) (op : TransOp) (rhs : PyVal) (obj : PyVal) :
    Except PyErr PyVal :=
  match get_from_prev_version path obj with
  | .error e => .error e
  | .ok old_value =>
    match attrgetter path obj with
    | .error e => .error e
    | .ok v => op v rhs old_value

mutual
/-- A `Q` tree node: `connector` (the Django strings `"AND"`/`"OR"`),
`negated` flag, and the list of children. -/
inductive Q where
  | mk (connector : String) (negated : Bool) (children : QChildren)

/-- The `children` list of a `Q` node. -/
inductive QChildren where
  | nil
  | cons (c : QChild) (rest : QChildren)

/-- A child of a `Q` node: a `(key, value)` condition pair, or an
embedded `Q` object. -/
inductive QChild where
  | cond (key : String) (rhs : PyVal)
  | sub (q : Q)
end

/-- The connector of a node. -/
def Q.connector : Q → String
  | .mk c _ _ => c

/-- The negation flag of a node. -/
def Q.negated : Q → Bool
  | .mk _ n _ => n

/-- The children of a node. -/
def Q.children : Q → QChildren
  | .mk _ _ cs => cs

/-- Build a children list from a Lean list. -/
def QChildren.ofList : List QChild → QChildren
  | [] => .nil
  | c :: rest => .cons c (QChildren.ofList rest)

/-- View a children list as a Lean list (for stating properties). -/
def QChildren.toList : QChildren → List QChild
  | .nil => []
  | .cons c rest => c :: rest.toList

/-- A compiled node of the `Q.stack`: either a bound leaf (transition
flag, attribute path, resolved operator, literal) or an embedded `Q`
returned unchanged by `compile_node`. -/
inductive CompiledNode where
  | leaf (trans : Bool) (path : String) (op : OpEntry) (rhs : PyVal)
  | subQ (q : Q)

/-- Embeds `Q.compile_node` on a single child: embedded `Q` objects pass
through; a `(key, value)` pair goes through `prepare_statement` and
the registry, and the `'now' in opcode` test picks the transition
application for the leaf (as in `compile_op`). -/
def compile_node : QChild → Except PyErr CompiledNode
  | .cond lhs rhs =>
    match prepare_statement lhs rhs with
    | .error e => .error e
    | .ok (path, opcode) =>
      match operators opcode with
      | Option.none => .error (.keyError opcode)
      | Option.some entry =>
        .ok (.leaf (strContains opcode "now") path entry rhs)
  | .sub q => .ok (.subQ q)

/-- Embeds `Q.compile` / the first forcing of `Q.stack`: compile every direct
child in order, raising the first compile error before any child
predicate runs (nested `Q` children are not traversed). -/
def compileStack : QChildren → Except PyErr (List CompiledNode)
  | .nil => .ok []
  | .cons c rest =>
    match compile_node c with
    | .error e => .error e
    | .ok n => (compileStack rest).map (n :: ·)

/-- The `Q.gates` mapping: connector string to aggregation kind
(`"OR"` to `any`, `"AND"` to `all`); other connectors are not keys. -/
inductive GateKind where
  | gOr
  | gAnd

/-- Embeds `Q.gates` lookup, i.e. `gates[self.connector]`. -/
def gates : String → Option GateKind
  | "OR" => Option.some .gOr
  | "AND" => Option.some .gAnd
  | _ => Option.none

/-- The `Q.branches` mapping applied to the aggregated gate result:
`operator.not_` when negated, `operator.truth` otherwise — either way
a strict Python boolean. -/
def branches (negated : Bool) (b : Bool) : PyVal :=
  .bool (if negated then !b else b)

/-- Evaluation of one compiled leaf condition against an object:
`prepare_statement`, registry resolution, and application via
`apply_trans_op` for transition opcodes or `apply_op` otherwise.
Deterministic re-derivation of the compiled partial, used by the
evaluator after `compileStack` has validated the children. -/
def evalCond (lhs : String) (rhs : PyVal) (obj : PyVal) : Except PyErr PyVal :=
  match prepare_statement lhs rhs with
  | .error e => .error e
  | .ok (path, opcode) =>
    match operators opcode with
    | Option.none => .error (.keyError opcode)
    | Option.some entry =>
      if strContains opcode "now" then
        match entry with
        | .trans f => apply_trans_op path f rhs obj
        | .bin _ => .error (.typeError "operator takes two arguments")
      else
        match entry with
        | .bin f => apply_op path f rhs obj
        | .trans _ => .error (.typeError "operator takes three arguments")

mutual
/-- Embeds `Q.__call__(obj)`: look up the gate for the connector, force the
compiled stack (raising any compile error of the direct children
first), aggregate the child predicates over `obj` with `any`/`all`,
and apply the negation branch to the aggregated boolean. -/
def qCall : Q → PyVal → Except PyErr PyVal
  | .mk conn neg children, obj =>
    match gates conn with
    | Option.none => .error (.keyError conn)
    | Option.some g =>
      match compileStack children with
      | .error e => .error e
      | .ok _ =>
        match g with
        | .gOr =>
          match evalAny children obj with
          | .error e => .error e
          | .ok b => .ok (branches neg b)
        | .gAnd =>
          match evalAll children obj with
          | .error e => .error e
          | .ok b => .ok (branches neg b)

/-- Python `any(f(obj) for f in stack)`: short-circuits at the first
truthy child value. -/
def evalAny : QChildren → PyVal → Except PyErr Bool
  | .nil, _ => .ok false
  | .cons c rest, obj =>
    match evalChild c obj with
    | .error e => .error e
    | .ok v => if truthy v then .ok true else evalAny rest obj

/-- Python `all(f(obj) for f in stack)`: short-circuits at the first
falsy child value. -/
def evalAll : QChildren → PyVal → Except PyErr Bool
  | .nil, _ => .ok true
  | .cons c rest, obj =>
    match evalChild c obj with
    | .error e => .error e
    | .ok v => if truthy v then evalAll rest obj else .ok false

/-- One compiled child predicate applied to the object: a condition
runs its compiled leaf; an embedded `Q` is itself callable and
compiles its own children on its own first call. -/
def evalChild : QChild → PyVal → Except PyErr PyVal
  | .cond lhs rhs, obj => evalCond lhs rhs obj
  | .sub q, obj => qCall q obj
end

/-- Dispatch of `self.gate` (`gates[self.connector]`) over the
children: `any` for OR, `all` for AND. -/
def evalGate : GateKind → QChildren → PyVal → Except PyErr Bool
  | .gOr, cs, obj => evalAny cs obj
  | .gAnd, cs, obj => evalAll cs obj

/-- Python `any` over an already-compiled stack of arbitrary leaf
functions (the registry doc allows operators to return any truthy or
falsy value). -/
def anyStack : List (PyVal → Except PyErr PyVal) → PyVal → Except PyErr Bool
  | [], _ => .ok false
  | f :: rest, obj =>
    match f obj with
    | .error e => .error e
    | .ok v => if truthy v then .ok true else anyStack rest obj

/-- Python `all` over an already-compiled stack. -/
def allStack : List (PyVal → Except PyErr PyVal) → PyVal → Except PyErr Bool
  | [], _ => .ok true
  | f :: rest, obj =>
    match f obj with
    | .error e => .error e
    | .ok v => if truthy v then allStack rest obj else .ok false

/-- The body of `Q.__call__` over an arbitrary compiled stack:
`branches[negated](gate(f(obj) for f in stack))`. -/
def callStack (neg : Bool) (g : GateKind) (fs : List (PyVal → Except PyErr PyVal))
    (obj : PyVal) : Except PyErr PyVal :=
  match g with
  | .gOr => (anyStack fs obj).map (branches neg)
  | .gAnd => (allStack fs obj).map (branches neg)

/-! ## Helper lemmas -/

/-- Equation for `qCall` on a node, unfolded through the gate dispatch. -/
theorem qCall_def (conn : String) (neg : Bool) (cs : QChildren) (obj : PyVal) :
    qCall (.mk conn neg cs) obj =
      match gates conn with
      | Option.none => .error (.keyError conn)
      | Option.some g =>
        match compileStack cs with
        | .error e => .error e
        | .ok _ =>
          match evalGate g cs obj with
          | .error e => .error e
          | .ok b => .ok (branches neg b) := by
  cases hg : gates conn with
  | none => simp [qCall, hg]
  | some g =>
    cases g <;> cases hcs : compileStack cs <;>
      simp [qCall, hg, hcs, evalGate]

/-- An opcode produced by a successful `prepare_statement` is always
registered: `prepare_opcode` either keeps a registered opcode or
substitutes the registered `true`/`not`. -/
theorem prepare_statement_registered {lhs : String} {rhs : PyVal} {path opcode : String}
    (h : prepare_statement lhs rhs = .ok (path, opcode)) :
    ∃ entry, operators opcode = Option.some entry := by
  unfold prepare_statement at h
  cases hop : operators (rpartitionDunder lhs).2 with
  | none => simp [hop] at h
  | some entry =>
    by_cases hemp : (rpartitionDunder lhs).2.data.isEmpty
    · simp [hemp] at h
    · simp [hemp, hop] at h
      rcases h with ⟨-, h2⟩
      unfold prepare_opcode at h2
      split at h2
      · rw [← h2]; exact ⟨_, rfl⟩
      · split at h2
        · rw [← h2]; exact ⟨_, rfl⟩
        · rw [← h2]; exact ⟨entry, hop⟩

/-- Structural induction principle for children lists (the mutual
recursor specialised to one motive). -/
theorem QChildren.inductionOn {motive : QChildren → Prop} (hnil : motive .nil)
    (hcons : ∀ c rest, motive rest → motive (.cons c rest)) :
    ∀ cs, motive cs
  | .nil => hnil
  | .cons c rest => hcons c rest (QChildren.inductionOn hnil hcons rest)

/-- A condition child whose compiled predicate evaluates without
raising also compiles without raising. -/
theorem compile_node_ok_of_evalChild_ok {c : QChild} {obj : PyVal}
    (h : ∃ v, evalChild c obj = .ok v) :
    ∃ n, compile_node c = .ok n := by
  cases c with
  | sub q => exact ⟨_, rfl⟩
  | cond lhs rhs =>
    rcases h with ⟨v, hv⟩
    simp only [evalChild] at hv
    unfold evalCond at hv
    cases hps : prepare_statement lhs rhs with
    | error e => rw [hps] at hv; cases hv
    | ok pr =>
      rcases pr with ⟨path, opcode⟩
      rcases prepare_statement_registered hps with ⟨entry, hentry⟩
      simp only [compile_node, hps, hentry]
      exact ⟨_, rfl⟩

/-- A children list whose compiled predicates all evaluate without
raising compiles (as a stack) without raising. -/
theorem compileStack_ok_of_children_ok {cs : QChildren} {obj : PyVal}
    (h : ∀ c ∈ cs.toList, ∃ v, evalChild c obj = .ok v) :
    ∃ s, compileStack cs = .ok s := by
  induction cs using QChildren.inductionOn with
  | hnil => exact ⟨[], rfl⟩
  | hcons c rest ih =>
    rcases compile_node_ok_of_evalChild_ok
        (h c (by simp [QChildren.toList])) with ⟨n, hn⟩
    rcases ih (fun d hd => h d (by simp [QChildren.toList, hd])) with ⟨s, hs⟩
    refine ⟨n :: s, ?_⟩
    simp only [compileStack, hn, hs]
    rfl

/-- Aggregation `any` over children is `ok true` exactly when some child predicate
yields a truthy value, provided no child raises. -/
theorem evalAny_true_iff {cs : QChildren} {obj : PyVal}
    (h : ∀ c ∈ cs.toList, ∃ v, evalChild c obj = .ok v) :
    evalAny cs obj = .ok true ↔
      ∃ c ∈ cs.toList, ∃ v, evalChild c obj = .ok v ∧ truthy v := by
  induction cs using QChildren.inductionOn with
  | hnil => simp [evalAny, QChildren.toList]
  | hcons c rest ih =>
    rcases h c (by simp [QChildren.toList]) with ⟨v, hv⟩
    have hrest := ih (fun d hd => h d (by simp [QChildren.toList, hd]))
    cases htv : truthy v with
    | true =>
      constructor
      · intro _
        exact ⟨c, by simp [QChildren.toList], v, hv, htv⟩
      · intro _
        simp [evalAny, hv, htv]
    | false =>
      have hstep : evalAny (QChildren.cons c rest) obj = evalAny rest obj := by
        simp [evalAny, hv, htv]
      rw [hstep, hrest]
      constructor
      · rintro ⟨d, hd, w, hw, htw⟩
        exact ⟨d, by simp [QChildren.toList, hd], w, hw, htw⟩
      · rintro ⟨d, hd, w, hw, htw⟩
        simp only [QChildren.toList, List.mem_cons] at hd
        rcases hd with rfl | hd
        · rw [hv] at hw
          cases hw
          rw [htv] at htw
          cases htw
        · exact ⟨d, hd, w, hw, htw⟩

/-- Aggregation `any` over children never raises when no child predicate raises. -/
theorem evalAny_ok_of_children_ok {cs : QChildren} {obj : PyVal}
    (h : ∀ c ∈ cs.toList, ∃ v, evalChild c obj = .ok v) :
    ∃ b, evalAny cs obj = .ok b := by
  induction cs using QChildren.inductionOn with
  | hnil => exact ⟨false, rfl⟩
  | hcons c rest ih =>
    rcases h c (by simp [QChildren.toList]) with ⟨v, hv⟩
    rcases ih (fun d hd => h d (by simp [QChildren.toList, hd])) with ⟨b, hb⟩
    cases htv : truthy v
    · exact ⟨b, by simp [evalAny, hv, htv, hb]⟩
    · exact ⟨true, by simp [evalAny, hv, htv]⟩

/-! ## Claims -/

/-- Claim C9: evaluating a non-negated tree with an empty children
list returns `True` for the AND connector and `False` for OR, and the
negated forms return the opposite, because the aggregation runs over
zero compiled child predicates. -/
theorem empty_children_gate (obj : PyVal) :
    qCall (.mk "AND" false .nil) obj = .ok (.bool true)
    ∧ qCall (.mk "OR" false .nil) obj = .ok (.bool false)
    ∧ qCall (.mk "AND" true .nil) obj = .ok (.bool false)
    ∧ qCall (.mk "OR" true .nil) obj = .ok (.bool true) :=
  ⟨rfl, rfl, rfl, rfl⟩

/-- Claim C4: `eq` with literal `True` (and `ne` with `False`) is
compiled as the unary truthiness opcode `true`, discarding the
literal, so it matches exactly the truthy attribute values (including
non-boolean ones such as `1` or a non-empty list); `eq` with `False`
(and `ne` with `True`) becomes the unary `not` opcode and matches
exactly the falsy values such as `0`, `""` and `[]`. -/
theorem boolean_sugar_truthiness :
    prepare_opcode "eq" (.bool true) = "true"
    ∧ prepare_opcode "ne" (.bool false) = "true"
    ∧ prepare_opcode "eq" (.bool false) = "not"
    ∧ prepare_opcode "ne" (.bool true) = "not"
    ∧ (∀ v : PyVal,
        evalCond "a__eq" (.bool true) (mkObj [("a", v)]) = .ok (.bool (truthy v)))
    ∧ (∀ v : PyVal,
        evalCond "a__ne" (.bool false) (mkObj [("a", v)]) = .ok (.bool (truthy v)))
    ∧ (∀ v : PyVal,
        evalCond "a__eq" (.bool false) (mkObj [("a", v)]) = .ok (.bool (!truthy v)))
    ∧ (∀ v : PyVal,
        evalCond "a__ne" (.bool true) (mkObj [("a", v)]) = .ok (.bool (!truthy v)))
    ∧ qCall (.mk "AND" false (.cons (.cond "is_staff__eq" (.bool true)) .nil))
        (mkObj [("is_staff", .int 1)]) = .ok (.bool true)
    ∧ qCall (.mk "AND" false (.cons (.cond "is_staff__eq" (.bool true)) .nil))
        (mkObj [("is_staff", .list (.cons (.int 1) .nil))]) = .ok (.bool true)
    ∧ qCall (.mk "AND" false (.cons (.cond "is_staff__eq" (.bool true)) .nil))
        (mkObj [("is_staff", .int 0)]) = .ok (.bool false)
    ∧ qCall (.mk "AND" false (.cons (.cond "is_staff__eq" (.bool false)) .nil))
        (mkObj [("is_staff", .int 0)]) = .ok (.bool true)
    ∧ qCall (.mk "AND" false (.cons (.cond "is_staff__eq" (.bool false)) .nil))
        (mkObj [("is_staff", .str "")]) = .ok (.bool true)
    ∧ qCall (.mk "AND" false (.cons (.cond "is_staff__eq" (.bool false)) .nil))
        (mkObj [("is_staff", .list .nil)]) = .ok (.bool true)
    ∧ qCall (.mk "AND" false (.cons (.cond "is_staff__eq" (.bool false)) .nil))
        (mkObj [("is_staff", .list (.cons (.int 1) .nil))]) = .ok (.bool false) :=
  ⟨rfl, rfl, rfl, rfl, fun _ => rfl, fun _ => rfl, fun _ => rfl, fun _ => rfl,
   rfl, rfl, rfl, rfl, rfl, rfl, rfl⟩

/-- Claim C8: `in`/`not_in` test membership of the observed attribute
value inside the literal container (arguments reversed relative to
`operator.contains`), while `contains` tests whether the literal is
found inside the observed value. -/
theorem membership_direction :
    operators "in" = Option.some (.bin (reverse_arguments2 opContains))
    ∧ operators "not_in" = Option.some (.bin (reverse_arguments2 not_contains))
    ∧ operators "contains" = Option.some (.bin opContains)
    ∧ (∀ (observed : PyVal) (xs : PyList),
        reverse_arguments2 opContains observed (.list xs)
          = .ok (.bool (xs.containsVal observed)))
    ∧ (∀ (observed : PyVal) (xs : PyList),
        reverse_arguments2 not_contains observed (.list xs)
          = .ok (.bool (!xs.containsVal observed)))
    ∧ (∀ (lit : PyVal) (xs : PyList),
        opContains (.list xs) lit = .ok (.bool (xs.containsVal lit)))
    ∧ qCall (.mk "AND" false
          (.cons (.cond "x__in" (.list (PyList.ofList [.int 1, .int 2, .int 3]))) .nil))
        (mkObj [("x", .int 2)]) = .ok (.bool true)
    ∧ qCall (.mk "AND" false
          (.cons (.cond "x__not_in" (.list (PyList.ofList [.int 1, .int 2, .int 3]))) .nil))
        (mkObj [("x", .int 5)]) = .ok (.bool true)
    ∧ qCall (.mk "AND" false (.cons (.cond "x__contains" (.int 2)) .nil))
        (mkObj [("x", .list (PyList.ofList [.int 1, .int 2, .int 3]))]) = .ok (.bool true)
    ∧ qCall (.mk "AND" false (.cons (.cond "s__contains" (.str "ell")) .nil))
        (mkObj [("s", .str "hello")]) = .ok (.bool true)
    ∧ qCall (.mk "AND" false (.cons (.cond "s__in" (.str "hello world")) .nil))
        (mkObj [("s", .str "hello")]) = .ok (.bool true) :=
  ⟨rfl, rfl, rfl, fun _ _ => rfl, fun _ _ => rfl, fun _ _ => rfl,
   rfl, rfl, rfl, rfl, rfl⟩

/-- Claim C2: a non-negated OR tree evaluates to `True` iff at least
one child predicate yields a truthy value on the object (stated for
children that evaluate without raising, since an exception propagates
instead of producing a boolean); in particular for children
`x__gt 5`, `x__lt 0`: `x=10` is `True`, `x=3` is `False`, `x=-1` is
`True`. -/
theorem or_gate_iff :
    (∀ (cs : QChildren) (obj : PyVal),
      (∀ c ∈ cs.toList, ∃ v, evalChild c obj = .ok v) →
      (qCall (.mk "OR" false cs) obj = .ok (.bool true) ↔
        ∃ c ∈ cs.toList, ∃ v, evalChild c obj = .ok v ∧ truthy v))
    ∧ qCall (.mk "OR" false (.cons (.cond "x__gt" (.int 5))
          (.cons (.cond "x__lt" (.int 0)) .nil)))
        (mkObj [("x", .int 10)]) = .ok (.bool true)
    ∧ qCall (.mk "OR" false (.cons (.cond "x__gt" (.int 5))
          (.cons (.cond "x__lt" (.int 0)) .nil)))
        (mkObj [("x", .int 3)]) = .ok (.bool false)
    ∧ qCall (.mk "OR" false (.cons (.cond "x__gt" (.int 5))
          (.cons (.cond "x__lt" (.int 0)) .nil)))
        (mkObj [("x", .int (-1))]) = .ok (.bool true) := by
  refine ⟨?_, rfl, rfl, rfl⟩
  intro cs obj h
  rcases compileStack_ok_of_children_ok h with ⟨s, hs⟩
  rcases evalAny_ok_of_children_ok h with ⟨b, hb⟩
  rw [qCall_def]
  simp only [show gates "OR" = Option.some GateKind.gOr from rfl, hs, evalGate, hb]
  cases b with
  | true =>
    exact ⟨fun _ => (evalAny_true_iff h).mp hb, fun _ => rfl⟩
  | false =>
    constructor
    · intro hcontr
      exfalso
      simp [branches] at hcontr
    · intro hex
      exfalso
      have hcontr := (evalAny_true_iff h).mpr hex
      rw [hb] at hcontr
      simp at hcontr

/-- Witness for C2: the general OR iff applied to the concrete example
tree and the object with `x=10`. -/
theorem or_gate_iff_witness :
    qCall (.mk "OR" false (.cons (.cond "x__gt" (.int 5))
        (.cons (.cond "x__lt" (.int 0)) .nil)))
      (mkObj [("x", .int 10)]) = .ok (.bool true) :=
  (or_gate_iff.1 (.cons (.cond "x__gt" (.int 5)) (.cons (.cond "x__lt" (.int 0)) .nil))
      (mkObj [("x", .int 10)])
      (by
        intro c hc
        simp only [QChildren.toList, List.mem_cons, List.not_mem_nil, or_false] at hc
        rcases hc with rfl | rfl
        · exact ⟨.bool true, rfl⟩
        · exact ⟨.bool false, rfl⟩)).mpr
    ⟨.cond "x__gt" (.int 5), by simp [QChildren.toList], .bool true, rfl, rfl⟩

/-- Claim C3: evaluating a negated tree returns the logical negation
of evaluating the otherwise-identical non-negated tree on the same
object, for every connector, children list and object. -/
theorem negated_tree (conn : String) (cs : QChildren) (obj : PyVal) (b : Bool)
    (h : qCall (.mk conn false cs) obj = .ok (.bool b)) :
    qCall (.mk conn true cs) obj = .ok (.bool (!b)) := by
  rw [qCall_def] at h ⊢
  cases hg : gates conn with
  | none => rw [hg] at h; simp at h
  | some g =>
    rw [hg] at h
    dsimp only at h ⊢
    cases hcs : compileStack cs with
    | error e => rw [hcs] at h; simp at h
    | ok s =>
      rw [hcs] at h
      dsimp only at h ⊢
      cases hev : evalGate g cs obj with
      | error e => rw [hev] at h; simp at h
      | ok b2 =>
        rw [hev] at h
        dsimp only at h
        have hb2 : b2 = b := by
          simp [branches] at h
          exact h
        rw [hb2]
        rfl

/-- Witness for C3: the negated singleton AND tree flips the result of
the non-negated one on a concrete object. -/
theorem negated_tree_witness :
    qCall (.mk "AND" true (.cons (.cond "x__eq" (.int 3)) .nil))
      (mkObj [("x", .int 3)]) = .ok (.bool false) :=
  negated_tree "AND" (.cons (.cond "x__eq" (.int 3)) .nil)
    (mkObj [("x", .int 3)]) true rfl

/-- Claim C10: whenever evaluation completes without raising, the
result is exactly a Python boolean, both for `__call__` over an
arbitrary compiled stack (whose leaf functions may return any truthy
or falsy value) and for the tree evaluator, because the negation
branch applies `operator.not_` / `operator.truth` to the aggregated
result. -/
theorem call_returns_bool :
    (∀ (neg : Bool) (g : GateKind) (fs : List (PyVal → Except PyErr PyVal))
        (obj : PyVal) (v : PyVal),
      callStack neg g fs obj = .ok v → ∃ b, v = .bool b)
    ∧ (∀ (q : Q) (obj : PyVal) (v : PyVal),
      qCall q obj = .ok v → ∃ b, v = .bool b) := by
  constructor
  · intro neg g fs obj v h
    unfold callStack at h
    cases g with
    | gOr =>
      cases ha : anyStack fs obj with
      | error e => rw [ha] at h; cases h
      | ok b =>
        rw [ha] at h
        injection h with h1
        exact ⟨if neg then !b else b, h1.symm⟩
    | gAnd =>
      cases ha : allStack fs obj with
      | error e => rw [ha] at h; cases h
      | ok b =>
        rw [ha] at h
        injection h with h1
        exact ⟨if neg then !b else b, h1.symm⟩
  · intro q obj v h
    cases q with
    | mk conn neg cs =>
      rw [qCall_def] at h
      cases hg : gates conn with
      | none => rw [hg] at h; simp at h
      | some g =>
        rw [hg] at h
        dsimp only at h
        cases hcs : compileStack cs with
        | error e => rw [hcs] at h; simp at h
        | ok s =>
          rw [hcs] at h
          dsimp only at h
          cases hev : evalGate g cs obj with
          | error e => rw [hev] at h; simp at h
          | ok b =>
            rw [hev] at h
            dsimp only at h
            have h2 : branches neg b = v := by
              injection h
            exact ⟨if neg then !b else b, h2.symm⟩

/-- Witness for C10: a stack whose single leaf returns the non-boolean
truthy value `7` still yields the strict boolean `True`. -/
theorem call_returns_bool_witness :
    callStack false .gOr [fun _ => .ok (.int 7)] PyVal.none = .ok (.bool true)
    ∧ ∃ b, PyVal.bool true = PyVal.bool b :=
  ⟨rfl, call_returns_bool.1 false .gOr [fun _ => .ok (.int 7)] PyVal.none
    (.bool true) rfl⟩

/-- Claim C5: a condition whose key has a missing or unregistered
opcode suffix raises the unknown-operator `ValueError` at first
compilation, which happens when the tree is first called, never at
construction: the node is constructed with the offending condition
stored among its children, the stack compilation raises, and therefore
every evaluation call raises — for any valid connector, negation flag,
sibling children and candidate object. -/
theorem unknown_opcode_lazy (key : String) (rhs : PyVal) (e : PyErr) (conn : String)
    (g : GateKind) (neg : Bool) (rest : QChildren) (obj : PyVal)
    (hkey : prepare_statement key rhs = .error e) (hconn : gates conn = Option.some g) :
    (Q.mk conn neg (.cons (.cond key rhs) rest)).children = .cons (.cond key rhs) rest
    ∧ compileStack (.cons (.cond key rhs) rest) = .error e
    ∧ qCall (.mk conn neg (.cons (.cond key rhs) rest)) obj = .error e := by
  have hcn : compile_node (.cond key rhs) = .error e := by
    simp [compile_node, hkey]
  have hstack : compileStack (.cons (.cond key rhs) rest) = .error e := by
    simp [compileStack, hcn]
  refine ⟨rfl, hstack, ?_⟩
  rw [qCall_def]
  simp [hconn, hstack]

/-- Witness for C5: the key `"name"` (no opcode suffix) in an AND tree
raises the unknown-operator error on evaluation. -/
theorem unknown_opcode_lazy_witness :
    qCall (.mk "AND" false (.cons (.cond "name" (.str "Costanza")) .nil)) PyVal.none
      = .error (.valueError
          "filter field argument '' not allowed: did you mean '__eq'?") :=
  (unknown_opcode_lazy "name" (.str "Costanza")
    (.valueError "filter field argument '' not allowed: did you mean '__eq'?")
    "AND" .gAnd false .nil PyVal.none rfl rfl).2.2

/-- Counterexample for C6: compiling the separator-less key `"name"`
raises a `ValueError` whose message is built from the empty prefix
before the (absent) separator — the message does not contain the
offending key `"name"` at all, and suggests `'__eq'`. -/
theorem error_names_key_counterexample :
    prepare_statement "name" (.str "Costanza")
      = .error (.valueError
          "filter field argument '' not allowed: did you mean '__eq'?")
    ∧ strContains
        "filter field argument '' not allowed: did you mean '__eq'?" "name" = false :=
  ⟨rfl, rfl⟩

/-- Claim C6 (amended): the raised error message names the portion of
the key before the last `__` separator — which is the empty string
when the key has no separator — and suggests that portion followed by
`__eq`; for the key `"name"` the message is therefore
`filter field argument '' not allowed: did you mean '__eq'?`, naming
the empty string rather than `"name"`. -/
theorem error_names_separator_head {lhs : String} {rhs : PyVal} {e : PyErr}
    (h : prepare_statement lhs rhs = .error e) :
    e = .valueError (E_FILTER_FIELD_MISSING_OP (rpartitionDunder lhs).1) := by
  unfold prepare_statement at h
  by_cases hc : (rpartitionDunder lhs).2.data.isEmpty
      || (operators (rpartitionDunder lhs).2).isNone
  · simp only [hc, if_pos] at h
    injection h with h1
    exact h1.symm
  · simp only [hc] at h
    simp at h

/-- Witness for C6: the amended message shape applied at the concrete
key `"name"`. -/
theorem error_names_separator_head_witness :
    PyErr.valueError "filter field argument '' not allowed: did you mean '__eq'?"
      = .valueError (E_FILTER_FIELD_MISSING_OP (rpartitionDunder "name").1) :=
  @error_names_separator_head "name" (PyVal.str "Costanza")
    (.valueError "filter field argument '' not allowed: did you mean '__eq'?") rfl

/-- Counterexample for C1: the condition `("score__now_gte", 100)` on
an object whose previous snapshot had `score=100` and whose current
`score` is `150` evaluates to `True`, not `False` as claimed: the
`now_gte` did-change companion is `operator.le`, which also accepts an
old value equal to the needle. -/
theorem now_gte_already_held_counterexample :
    qCall (.mk "AND" false (.cons (.cond "score__now_gte" (.int 100)) .nil))
      (mkObj [("score", .int 150), ("_previous_version", mkObj [("score", .int 100)])])
      = .ok (.bool true) := rfl

/-- Claim C1 (amended): every transition operator built by
`wrap_transition(op, did_change)` is truthy only when the paired
did-change operator accepts the old value against the needle and the
base comparison accepts the new value; for `now_gte` the did-change
test is `old_value <= needle`, which an old value that already
satisfied `gte` at equality also passes, so `("score__now_gte", 100)`
evaluates to `True` both for the transition `90 -> 100` and for
`100 -> 150`. -/
theorem transition_operator_semantics :
    (∀ (op did_change : BinOp) (new_value needle old_value v : PyVal),
      wrap_transition op did_change new_value needle old_value = .ok v → truthy v →
        (∃ d, did_change old_value needle = .ok d ∧ truthy d)
        ∧ op new_value needle = .ok v)
    ∧ operators "now_gte" = Option.some (.trans (wrap_transition opGe opLe))
    ∧ (∀ new_value needle old_value : Int,
        wrap_transition opGe opLe (.int new_value) (.int needle) (.int old_value)
          = .ok (.bool (decide (old_value ≤ needle) && decide (needle ≤ new_value))))
    ∧ qCall (.mk "AND" false (.cons (.cond "score__now_gte" (.int 100)) .nil))
        (mkObj [("score", .int 100), ("_previous_version", mkObj [("score", .int 90)])])
        = .ok (.bool true)
    ∧ qCall (.mk "AND" false (.cons (.cond "score__now_gte" (.int 100)) .nil))
        (mkObj [("score", .int 150), ("_previous_version", mkObj [("score", .int 100)])])
        = .ok (.bool true) := by
  refine ⟨?_, rfl, ?_, rfl, rfl⟩
  · intro op did_change new_value needle old_value v h htv
    unfold wrap_transition at h
    cases hd : did_change old_value needle with
    | error e => rw [hd] at h; cases h
    | ok d =>
      rw [hd] at h
      dsimp only at h
      cases htd : truthy d with
      | true =>
        rw [htd] at h
        simp only [if_pos] at h
        exact ⟨⟨d, rfl, htd⟩, h⟩
      | false =>
        rw [htd] at h
        simp at h
        rw [← h] at htv
        rw [htd] at htv
        cases htv
  · intro new_value needle old_value
    unfold wrap_transition opGe opLe pyLeB pyNum
    by_cases hle : old_value ≤ needle
    · simp [hle, truthy, Except.map]
    · simp [hle, truthy, Except.map]

/-- Witness for C1: the general transition only-if applied at the
concrete `now_eq` instance `0 -> 1` with needle `1`. -/
theorem transition_operator_semantics_witness :
    ((∃ d, opNe (.int 0) (.int 1) = .ok d ∧ truthy d)
      ∧ opEq (.int 1) (.int 1) = .ok (.bool true)) :=
  transition_operator_semantics.1 opEq opNe (.int 1) (.int 1) (.int 0)
    (.bool true) rfl rfl

/-- Counterexample for C7: a transition condition evaluated on an
object with no `_previous_version` attribute can raise: with
`now_gte` and an integer needle the did-change comparison
`None <= 100` raises a `TypeError`. -/
theorem absent_previous_raises_counterexample :
    qCall (.mk "AND" false (.cons (.cond "score__now_gte" (.int 100)) .nil))
      (mkObj [("score", .int 100)])
      = .error (.typeError "unorderable operand types") := rfl

/-- Evaluation of `wrap_transition` over two boolean-returning
operators at an arbitrary old value: Python `and` of the two boolean
results. -/
theorem wrap_transition_bool (p q : PyVal → PyVal → Bool)
    (new_value needle old_value : PyVal) :
    wrap_transition (fun a b => .ok (.bool (p a b))) (fun a b => .ok (.bool (q a b)))
        new_value needle old_value
      = .ok (.bool (q old_value needle && p new_value needle)) := by
  unfold wrap_transition
  dsimp only
  cases hq : q old_value needle <;> simp [truthy, hq]

/-- Evaluation of the `now_in` transition operator against a list
literal at an arbitrary old value. -/
theorem wrap_transition_in_list (new_value old_value : PyVal) (xs : PyList) :
    wrap_transition (reverse_arguments2 opContains) (reverse_arguments2 not_contains)
        new_value (.list xs) old_value
      = .ok (.bool (!xs.containsVal old_value && xs.containsVal new_value)) := by
  unfold wrap_transition reverse_arguments2 not_contains opContains pyContains
  dsimp only
  cases hx : xs.containsVal old_value <;> simp [truthy, hx, Except.map]

/-- Evaluation of the `now_not_in` transition operator against a list
literal at an arbitrary old value. -/
theorem wrap_transition_not_in_list (new_value old_value : PyVal) (xs : PyList) :
    wrap_transition (reverse_arguments2 not_contains) (reverse_arguments2 opContains)
        new_value (.list xs) old_value
      = .ok (.bool (xs.containsVal old_value && !xs.containsVal new_value)) := by
  unfold wrap_transition reverse_arguments2 not_contains opContains pyContains
  dsimp only
  cases hx : xs.containsVal old_value <;> simp [truthy, hx, Except.map]

/-- Claim C7 (amended): when the candidate object does not expose the
previous-version back-reference, the previous-value getter yields the
absent marker `None` without raising, for every attribute path and
every such object.  Against that marker the did-change comparison is
well-defined for every new value and every needle under the equality,
inequality and identity pairings (`now_eq`, `now_ne`, `now_is`, and
`now_is_not`, whose did-change against the marker is identically
true), and under the membership pairings with a list literal; but a
membership pairing with a string literal raises a `TypeError`, the
ordering pairings `now_gt`/`now_lt`/`now_gte`/`now_lte` raise a
`TypeError` for every needle, `now_contains` raises a `TypeError`, and
`now_startswith`/`now_endswith` raise an `AttributeError` for every
needle — so the comparison is not well-defined for every operator
pairing in the registry, and those conditions raise on first
observation. -/
theorem absent_previous_version_behavior :
    (∀ (path : String) (obj : PyVal),
      pyGetattrOpt obj "_previous_version" = Option.none →
      get_from_prev_version path obj = .ok PyVal.none)
    ∧ operators "now_eq" = Option.some (.trans (wrap_transition opEq opNe))
    ∧ (∀ new_value needle : PyVal,
        wrap_transition opEq opNe new_value needle PyVal.none
          = .ok (.bool (!pyEq PyVal.none needle && pyEq new_value needle)))
    ∧ operators "now_ne" = Option.some (.trans (wrap_transition opNe opNe))
    ∧ (∀ new_value needle : PyVal,
        wrap_transition opNe opNe new_value needle PyVal.none
          = .ok (.bool (!pyEq PyVal.none needle && !pyEq new_value needle)))
    ∧ operators "now_is" = Option.some (.trans (wrap_transition opIs opIsNot))
    ∧ (∀ new_value needle : PyVal,
        wrap_transition opIs opIsNot new_value needle PyVal.none
          = .ok (.bool (!pyIs PyVal.none needle && pyIs new_value needle)))
    ∧ operators "now_is_not" = Option.some (.trans (wrap_transition opIsNot
        (fun a _ => .ok (.bool (pyIs a .none)))))
    ∧ (∀ new_value needle : PyVal,
        wrap_transition opIsNot (fun a _ => .ok (.bool (pyIs a .none)))
            new_value needle PyVal.none
          = .ok (.bool (!pyIs new_value needle)))
    ∧ operators "now_in" = Option.some (.trans (wrap_transition
        (reverse_arguments2 opContains) (reverse_arguments2 not_contains)))
    ∧ (∀ (new_value : PyVal) (xs : PyList),
        wrap_transition (reverse_arguments2 opContains) (reverse_arguments2 not_contains)
            new_value (.list xs) PyVal.none
          = .ok (.bool (!xs.containsVal PyVal.none && xs.containsVal new_value)))
    ∧ (∀ (new_value : PyVal) (s : String),
        wrap_transition (reverse_arguments2 opContains) (reverse_arguments2 not_contains)
            new_value (.str s) PyVal.none
          = .error (.typeError "in <string> requires string as left operand"))
    ∧ operators "now_not_in" = Option.some (.trans (wrap_transition
        (reverse_arguments2 not_contains) (reverse_arguments2 opContains)))
    ∧ (∀ (new_value : PyVal) (xs : PyList),
        wrap_transition (reverse_arguments2 not_contains) (reverse_arguments2 opContains)
            new_value (.list xs) PyVal.none
          = .ok (.bool (xs.containsVal PyVal.none && !xs.containsVal new_value)))
    ∧ operators "now_gt" = Option.some (.trans (wrap_transition opGt opLt))
    ∧ (∀ new_value needle : PyVal,
        wrap_transition opGt opLt new_value needle PyVal.none
          = .error (.typeError "unorderable operand types"))
    ∧ operators "now_lt" = Option.some (.trans (wrap_transition opLt opGt))
    ∧ (∀ new_value needle : PyVal,
        wrap_transition opLt opGt new_value needle PyVal.none
          = .error (.typeError "unorderable operand types"))
    ∧ operators "now_gte" = Option.some (.trans (wrap_transition opGe opLe))
    ∧ (∀ new_value needle : PyVal,
        wrap_transition opGe opLe new_value needle PyVal.none
          = .error (.typeError "unorderable operand types"))
    ∧ operators "now_lte" = Option.some (.trans (wrap_transition opLe opGe))
    ∧ (∀ new_value needle : PyVal,
        wrap_transition opLe opGe new_value needle PyVal.none
          = .error (.typeError "unorderable operand types"))
    ∧ operators "now_contains"
        = Option.some (.trans (wrap_transition opContains (negate opContains)))
    ∧ (∀ new_value needle : PyVal,
        wrap_transition opContains (negate opContains) new_value needle PyVal.none
          = .error (.typeError "argument of type is not iterable"))
    ∧ operators "now_startswith"
        = Option.some (.trans (wrap_transition startswith (negate startswith)))
    ∧ (∀ new_value needle : PyVal,
        wrap_transition startswith (negate startswith) new_value needle PyVal.none
          = .error (.attributeError "object has no attribute startswith"))
    ∧ operators "now_endswith"
        = Option.some (.trans (wrap_transition endswith (negate endswith)))
    ∧ (∀ new_value needle : PyVal,
        wrap_transition endswith (negate endswith) new_value needle PyVal.none
          = .error (.attributeError "object has no attribute endswith"))
    ∧ qCall (.mk "AND" false (.cons (.cond "x__now_eq" (.int 5)) .nil))
        (mkObj [("x", .int 5)]) = .ok (.bool true)
    ∧ qCall (.mk "AND" false (.cons (.cond "x__now_ne" (.int 7)) .nil))
        (mkObj [("x", .int 5)]) = .ok (.bool true)
    ∧ qCall (.mk "AND" false (.cons (.cond "x__now_is" (.int 5)) .nil))
        (mkObj [("x", .int 5)]) = .ok (.bool true)
    ∧ qCall (.mk "AND" false
          (.cons (.cond "x__now_in" (.list (PyList.ofList [.int 5, .int 6]))) .nil))
        (mkObj [("x", .int 5)]) = .ok (.bool true)
    ∧ qCall (.mk "AND" false
          (.cons (.cond "x__now_not_in" (.list (PyList.ofList [.int 6]))) .nil))
        (mkObj [("x", .int 5)]) = .ok (.bool false)
    ∧ qCall (.mk "AND" false (.cons (.cond "x__now_gt" (.int 5)) .nil))
        (mkObj [("x", .int 10)]) = .error (.typeError "unorderable operand types")
    ∧ qCall (.mk "AND" false (.cons (.cond "x__now_lt" (.int 5)) .nil))
        (mkObj [("x", .int 3)]) = .error (.typeError "unorderable operand types")
    ∧ qCall (.mk "AND" false (.cons (.cond "x__now_lte" (.int 5)) .nil))
        (mkObj [("x", .int 3)]) = .error (.typeError "unorderable operand types")
    ∧ qCall (.mk "AND" false (.cons (.cond "name__now_startswith" (.str "G")) .nil))
        (mkObj [("name", .str "George")])
        = .error (.attributeError "object has no attribute startswith")
    ∧ qCall (.mk "AND" false (.cons (.cond "name__now_endswith" (.str "e")) .nil))
        (mkObj [("name", .str "George")])
        = .error (.attributeError "object has no attribute endswith")
    ∧ qCall (.mk "AND" false (.cons (.cond "x__now_contains" (.int 1)) .nil))
        (mkObj [("x", .list (.cons (.int 1) .nil))])
        = .error (.typeError "argument of type is not iterable") :=
  ⟨fun path obj h => by unfold get_from_prev_version; rw [h],
   rfl,
   fun new_value needle =>
     wrap_transition_bool pyEq (fun a b => !pyEq a b) new_value needle PyVal.none,
   rfl,
   fun new_value needle =>
     wrap_transition_bool (fun a b => !pyEq a b) (fun a b => !pyEq a b)
       new_value needle PyVal.none,
   rfl,
   fun new_value needle =>
     wrap_transition_bool pyIs (fun a b => !pyIs a b) new_value needle PyVal.none,
   rfl,
   fun _ _ => rfl,
   rfl,
   fun new_value xs => wrap_transition_in_list new_value PyVal.none xs,
   fun _ _ => rfl,
   rfl,
   fun new_value xs => wrap_transition_not_in_list new_value PyVal.none xs,
   rfl,
   fun _ _ => rfl,
   rfl,
   fun _ needle => by cases needle <;> rfl,
   rfl,
   fun _ _ => rfl,
   rfl,
   fun _ needle => by cases needle <;> rfl,
   rfl,
   fun _ _ => rfl,
   rfl,
   fun _ _ => rfl,
   rfl,
   fun _ _ => rfl,
   rfl, rfl, rfl, rfl, rfl, rfl, rfl, rfl, rfl, rfl, rfl⟩

/-- Witness for C7: the universal never-raising previous-value getter
applied at a concrete path and object without the back-reference. -/
theorem absent_previous_version_behavior_witness :
    get_from_prev_version "score" (mkObj [("score", .int 1)]) = .ok PyVal.none :=
  absent_previous_version_behavior.1 "score" (mkObj [("score", .int 1)]) rfl


end Thorn
